import Mathlib

/-
Verification of the PyInvestment order-management core and helpers.

The Blotter / Order / Order-Factory component (spec.md sections 3-4) ships in
this repository only through its test suite (src/tests/test_blotter.py); the
implementation module pytech/trading is not part of the source tree here, so
those definitions are modelled from the spec, as marked on each definition.
The technical-analysis function wma (src/pytech/fin/tech_analysis.py) and the
TiingoClient API-key resolution (src/pytech/sources/tiingo.py) are embedded
directly from the source.

Prices are modelled as rationals; Python None-able price arguments become
Option values; raised exceptions become Except results.
-/

/-- Modelled from the spec: TradeAction enum {BUY, SELL} (spec section 3);
the enum module pytech/utils/enums is not under src/. -/
inductive TradeAction where
  | BUY
  | SELL
deriving DecidableEq, Repr

/-- Modelled from the spec: OrderType enum {MARKET, LIMIT, STOP, STOP_LIMIT}
(spec section 3); the enum module is not under src/. -/
inductive OrderType where
  | MARKET
  | LIMIT
  | STOP
  | STOP_LIMIT
deriving DecidableEq, Repr

/-- Modelled from the spec: OrderStatus enum {OPEN, PARTIALLY_FILLED, FILLED,
CANCELLED, REJECTED} (spec section 3); the enum module is not under src/. -/
inductive OrderStatus where
  | OPEN
  | PARTIALLY_FILLED
  | FILLED
  | CANCELLED
  | REJECTED
deriving DecidableEq, Repr

/-- FILLED, CANCELLED and REJECTED are the terminal statuses
(spec section 4.3 state machine). -/
def OrderStatus.is_terminal : OrderStatus → Bool
  | .FILLED => true
  | .CANCELLED => true
  | .REJECTED => true
  | _ => false

/-- A resting order is one in OPEN or PARTIALLY_FILLED status
(spec glossary). -/
def OrderStatus.is_resting : OrderStatus → Bool
  | .OPEN => true
  | .PARTIALLY_FILLED => true
  | _ => false

/-- Modelled from the spec: Order record (spec section 3).  The tagged-variant
representation is modelled as the order_type tag plus the rule that exactly
the price fields required by the tag are present (enforced by the factory);
pytech/trading/order is not under src/. -/
structure Order where
  id : String
  ticker : String
  action : TradeAction
  qty : Int
  order_type : OrderType
  limit_price : Option ℚ
  stop_price : Option ℚ
  status : OrderStatus
deriving DecidableEq, Repr

/-- Modelled from the spec: a price bar {instrument, timestamp, open, high,
low, close} from the price-feed collaborator (spec section 6); `open` is a
Lean keyword, so that field is named open_price. -/
structure Bar where
  ticker : String
  timestamp : Nat
  open_price : ℚ
  high : ℚ
  low : ℚ
  close : ℚ
deriving DecidableEq, Repr

/-- Modelled from the spec: the error kinds of spec section 7; Python
exception classes become constructors. -/
inductive BlotterError where
  | ValidationError
  | DuplicateOrderError
  | OrderNotFoundError
  | InvalidTransitionError
deriving DecidableEq, Repr

/-- Modelled from the spec: the Price-Range Filter
`is_outside_band(price, upper_bound, lower_bound)` (spec section 4.2, and
Blotter._filter_on_price exercised by src/tests/test_blotter.py lines 67-87):
true iff (upper bound set and price > upper) or (lower bound set and
price < lower); comparisons are strict, so a price equal to a set bound is
not filtered out. -/
def is_outside_band (price : ℚ) (upper_bound lower_bound : Option ℚ) : Bool :=
  (match upper_bound with
   | some u => decide (u < price)
   | none => false)
  ||
  (match lower_bound with
   | some l => decide (price < l)
   | none => false)

/-- Modelled from the spec: the trigger price an order is filtered on -
limit_price for LIMIT, stop_price for STOP and (stop first) STOP_LIMIT
(spec section 4.3); MARKET carries no trigger price and defaults to 0. -/
def Order.trigger_price (o : Order) : ℚ :=
  match o.order_type with
  | .LIMIT => o.limit_price.getD 0
  | .STOP => o.stop_price.getD 0
  | .STOP_LIMIT => o.stop_price.getD 0
  | .MARKET => 0

/-- Modelled from the spec: Blotter._filter_on_price applies the Price-Range
Filter to the order's trigger price (src/tests/test_blotter.py lines 67-87
drive it with a LIMIT order, filtering on its limit_price). -/
def _filter_on_price (o : Order) (upper_price lower_price : Option ℚ) : Bool :=
  is_outside_band o.trigger_price upper_price lower_price

/-- Association-list lookup; models a Python dict keyed by order id /
instrument, with deterministic insertion order (spec section 3, Blotter). -/
def alookup {α : Type} : List (String × α) → String → Option α
  | [], _ => none
  | (k, v) :: rest, key => if k = key then some v else alookup rest key

/-- Association-list update in place: replaces the value at a key, leaving
the list unchanged when the key is absent. -/
def aupdate {α : Type} : List (String × α) → String → α → List (String × α)
  | [], _, _ => []
  | (k, v) :: rest, key, nv =>
      if k = key then (k, nv) :: rest else (k, v) :: aupdate rest key nv

/-- Adds an order id to an instrument's index set, creating the entry when
the instrument is new (spec section 3, Blotter secondary mapping). -/
def index_add (idx : List (String × List String)) (ticker oid : String) :
    List (String × List String) :=
  match alookup idx ticker with
  | some ids => aupdate idx ticker (ids ++ [oid])
  | none => idx ++ [(ticker, [oid])]

/-- Modelled from the spec: the Blotter owns the primary map from order id to
Order and the secondary map from instrument to the ids resting on it, kept in
lock-step (spec section 3); next_id feeds the freshly-generated-id counter. -/
structure Blotter where
  orders : List (String × Order)
  asset_index : List (String × List String)
  next_id : Nat
deriving DecidableEq, Repr

/-- Modelled from the spec: the Order Factory
`create_order(instrument, action, quantity, order_type, limit_price,
stop_price, order_id)` of spec section 4.1 (Blotter._create_order in
src/tests/test_blotter.py).  generated_id is the fresh id the Blotter's
counter supplies when order_id is absent.  Each variant carries only the
price fields its type requires; MARKET rejects any supplied price. -/
def create_order (ticker : String) (action : TradeAction) (qty : Int)
    (order_type : OrderType) (limit_price stop_price : Option ℚ)
    (order_id : Option String) (generated_id : String) :
    Except BlotterError Order :=
  if qty ≤ 0 then .error .ValidationError
  else
    match order_type with
    | .MARKET =>
        if limit_price.isSome || stop_price.isSome then .error .ValidationError
        else .ok ⟨order_id.getD generated_id, ticker, action, qty,
                  .MARKET, none, none, .OPEN⟩
    | .LIMIT =>
        match limit_price with
        | none => .error .ValidationError
        | some lp => .ok ⟨order_id.getD generated_id, ticker, action, qty,
                          .LIMIT, some lp, none, .OPEN⟩
    | .STOP =>
        match stop_price with
        | none => .error .ValidationError
        | some sp => .ok ⟨order_id.getD generated_id, ticker, action, qty,
                          .STOP, none, some sp, .OPEN⟩
    | .STOP_LIMIT =>
        match stop_price, limit_price with
        | some sp, some lp => .ok ⟨order_id.getD generated_id, ticker, action,
                                   qty, .STOP_LIMIT, some lp, some sp, .OPEN⟩
        | _, _ => .error .ValidationError

/-- Modelled from the spec: `place_order` (spec section 4.3): delegates to the
factory, then fails with DuplicateOrderError when the id is already in the
primary map, else inserts into the primary map and the instrument index.
Raising before any mutation gives the all-or-nothing behaviour of
spec section 7. -/
def place_order (b : Blotter) (ticker : String) (qty : Int)
    (action : TradeAction) (order_type : OrderType)
    (limit_price stop_price : Option ℚ) (order_id : Option String) :
    Except BlotterError (Blotter × String) :=
  let generated_id := "generated-" ++ toString b.next_id
  match create_order ticker action qty order_type limit_price stop_price
      order_id generated_id with
  | .error e => .error e
  | .ok o =>
      match alookup b.orders o.id with
      | some _ => .error .DuplicateOrderError
      | none =>
          .ok ({ orders := b.orders ++ [(o.id, o)],
                 asset_index := index_add b.asset_index ticker o.id,
                 next_id := b.next_id + 1 }, o.id)

/-- The Blotter state a caller holds after place_order: the updated Blotter
on success, the untouched input Blotter when the call raised (Python raises
before mutating, so a failed call leaves the indices as they were). -/
def place_order_state (b : Blotter) (ticker : String) (qty : Int)
    (action : TradeAction) (order_type : OrderType)
    (limit_price stop_price : Option ℚ) (order_id : Option String) : Blotter :=
  match place_order b ticker qty action order_type limit_price stop_price
      order_id with
  | .ok p => p.1
  | .error _ => b

/-- Modelled from the spec: `cancel_order(order_id, instrument)`
(spec section 4.3): OrderNotFoundError when the id is absent or on another
instrument; idempotent no-op when already CANCELLED; InvalidTransitionError
when FILLED or REJECTED; otherwise the status becomes CANCELLED. -/
def cancel_order (b : Blotter) (oid ticker : String) :
    Except BlotterError Blotter :=
  match alookup b.orders oid with
  | none => .error .OrderNotFoundError
  | some o =>
      if o.ticker ≠ ticker then .error .OrderNotFoundError
      else if o.status = .CANCELLED then .ok b
      else if o.status = .FILLED ∨ o.status = .REJECTED then
        .error .InvalidTransitionError
      else .ok { b with orders := aupdate b.orders oid
                          { o with status := .CANCELLED } }

/-- Applies f to the order stored at each listed id, skipping ids missing
from the primary map; the iteration pattern shared by cancel-all and trigger
evaluation over an instrument's index (spec section 4.3). -/
def apply_ids (f : Order → Order) :
    List (String × Order) → List String → List (String × Order)
  | orders, [] => orders
  | orders, oid :: rest =>
      apply_ids f
        (match alookup orders oid with
         | some o => aupdate orders oid (f o)
         | none => orders)
        rest

/-- Cancels an order when it is resting (OPEN or PARTIALLY_FILLED), leaving
terminal orders untouched (spec section 4.3, cancel_all_orders_for_asset). -/
def cancel_resting (o : Order) : Order :=
  if o.status.is_resting then { o with status := .CANCELLED } else o

/-- Modelled from the spec: `cancel_all_orders_for_asset(instrument)`
(spec section 4.3): iterates the instrument's index and cancels every resting
order; total, so it never raises, and an unknown instrument is a no-op. -/
def cancel_all_orders_for_asset (b : Blotter) (ticker : String) : Blotter :=
  match alookup b.asset_index ticker with
  | none => b
  | some ids => { b with orders := apply_ids cancel_resting b.orders ids }

/-- Modelled from the spec: direction-dependent bound selection
(spec section 4.3): a BUY threshold is reached when the bar's range falls
to-or-below it - the Price-Range Filter applied with lower_bound = bar low -
and a SELL threshold when the range rises to-or-above it - the filter applied
with upper_bound = bar high. -/
def price_reachable (action : TradeAction) (p low high : ℚ) : Bool :=
  match action with
  | .BUY => !(is_outside_band p none (some low))
  | .SELL => !(is_outside_band p (some high) none)

/-- Modelled from the spec: whether a bar's [low, high] band triggers an
order (spec section 4.3): MARKET unconditionally; LIMIT on its limit_price;
STOP on its stop_price; STOP_LIMIT checks the stop price first, then the
limit price, both through the direction-dependent filter. -/
def order_triggered (o : Order) (low high : ℚ) : Bool :=
  match o.order_type with
  | .MARKET => true
  | .LIMIT => price_reachable o.action (o.limit_price.getD 0) low high
  | .STOP => price_reachable o.action (o.stop_price.getD 0) low high
  | .STOP_LIMIT =>
      price_reachable o.action (o.stop_price.getD 0) low high
      && price_reachable o.action (o.limit_price.getD 0) low high

/-- Transitions a resting order to FILLED when the bar triggers it; terminal
orders and untriggered orders are returned unchanged (spec section 4.3). -/
def fill_triggered (o : Order) (low high : ℚ) : Order :=
  if o.status.is_resting && order_triggered o low high then
    { o with status := .FILLED }
  else o

/-- Modelled from the spec: `evaluate_trigger(instrument, bar)`
(spec section 4.3): for every resting order on the instrument, the bar's
[low, high] band is checked against the order's trigger price(s) and
triggered orders transition to FILLED. -/
def evaluate_trigger (b : Blotter) (ticker : String) (bar : Bar) : Blotter :=
  match alookup b.asset_index ticker with
  | none => b
  | some ids =>
      { b with orders :=
          apply_ids (fun o => fill_triggered o bar.low bar.high) b.orders ids }

/-- Lock-step consistency of the Blotter's two maps (spec sections 3 and 9):
every order id in the primary map appears in its instrument's index entry,
and every id listed under an instrument resolves to an order on that
instrument.  Decidable so concrete blotters can be checked by evaluation. -/
def Blotter.WF (b : Blotter) : Bool :=
  b.orders.all (fun p =>
    match alookup b.asset_index p.2.ticker with
    | some ids => decide (p.1 ∈ ids)
    | none => false)
  &&
  b.asset_index.all (fun q =>
    q.2.all (fun oid =>
      match alookup b.orders oid with
      | some o => decide (o.ticker = q.1)
      | none => true))

/-
Weighted moving average, embedded from src/pytech/fin/tech_analysis.py
lines 213-268.  The selected column of the DataFrame is modelled as the list
of its values; pandas iloc slicing becomes List.drop/take.
-/

/-- Python's list.reverse() reverses in place and returns None; the wma code
rebinds its accumulator to that return value, so this models the value the
name wma_ holds after `wma_ = wma_.reverse()`
(src/pytech/fin/tech_analysis.py line 231). -/
def py_list_reverse_result {α : Type} (_ : List α) : Option (List α) := none

/-- Embeds _chunks (src/pytech/fin/tech_analysis.py lines 235-256): walks the
reversed series and yields each window of `period` values, or none for the
tail windows that come up short. -/
def _chunks (prices : List ℚ) (period : Nat) : List (Option (List ℚ)) :=
  let rev := prices.reverse
  (List.range rev.length).map (fun i =>
    let chunk := (rev.drop i).take period
    if chunk.length ≠ period then none else some chunk)

/-- Embeds _chunked_wma (src/pytech/fin/tech_analysis.py lines 259-268): sums
price * (i / denominator) over the re-reversed chunk zipped with 1..period,
denominator = period * (period + 1) / 2. -/
def _chunked_wma (chunk : List ℚ) (period : Nat) : ℚ :=
  let denominator : ℚ := (period * (period + 1) : ℚ) / 2
  ((chunk.reverse.zip ((List.range (period + 1)).drop 1)).map
    (fun pr => pr.1 * ((pr.2 : ℚ) / denominator))).sum

/-- Embeds wma (src/pytech/fin/tech_analysis.py lines 213-232): accumulates a
per-chunk weighted average (None for a short chunk, whose AttributeError is
caught), then rebinds the accumulator to the result of list.reverse() and
returns that. -/
def wma (prices : List ℚ) (period : Nat) : Option (List (Option ℚ)) :=
  let wma_acc := (_chunks prices period).map (fun chunk =>
    match chunk with
    | none => none
    | some c => some (_chunked_wma c period))
  py_list_reverse_result wma_acc

/-
TiingoClient API-key resolution, embedded from src/pytech/sources/tiingo.py
lines 18-24.  The process environment is modelled by the Option value of the
TIINGO_API_KEY variable; raising KeyError becomes an Except.error.
-/

/-- Embeds os.environ.get('TIINGO_API_KEY', api_key)
(src/pytech/sources/tiingo.py line 21): the environment value when the
variable is set, else the api_key argument. -/
def environ_get (env_value default_value : Option String) : Option String :=
  match env_value with
  | some v => some v
  | none => default_value

/-- Embeds TiingoClient.__init__ key resolution (src/pytech/sources/tiingo.py
lines 18-24): self.api_key = os.environ.get('TIINGO_API_KEY', api_key), then
KeyError when the result is None. -/
def tiingo_api_key (env_value api_key : Option String) :
    Except String String :=
  match environ_get env_value api_key with
  | some k => .ok k
  | none => .error "Must set TIINGO_API_KEY."

/-
Concrete fixtures used by the witness theorems: orders and blotters as the
test suite builds them (src/tests/test_blotter.py).
-/

/-- The LIMIT BUY order of the populated test blotter, id "one" on AAPL
(src/tests/test_blotter.py lines 8-9). -/
def order_one : Order :=
  ⟨"one", "AAPL", .BUY, 50, .LIMIT, some (100.10 : ℚ), none, .OPEN⟩

/-- The LIMIT SELL order of the populated test blotter, id "three" on MSFT
(src/tests/test_blotter.py lines 10-11). -/
def order_three : Order :=
  ⟨"three", "MSFT", .SELL, 50, .LIMIT, some (93.10 : ℚ), none, .OPEN⟩

/-- A FILLED order on FB, used to exercise the terminal-state rules. -/
def order_filled : Order :=
  ⟨"four", "FB", .SELL, 50, .LIMIT, some (105.10 : ℚ), none, .FILLED⟩

/-- A concrete populated blotter: two OPEN limit orders and one FILLED order,
with a consistent instrument index. -/
def blotter_pop : Blotter :=
  { orders := [("one", order_one), ("three", order_three),
               ("four", order_filled)],
    asset_index := [("AAPL", ["one"]), ("MSFT", ["three"]), ("FB", ["four"])],
    next_id := 3 }

/-- A concrete AAPL bar with low 99 and high 101, used by the trigger
witness. -/
def bar_example : Bar := ⟨"AAPL", 0, 100, 101, 99, 100⟩

/-- The order of the spec section 8 scenario: a STOP_LIMIT SELL on AAPL for
55 with stop_price 111.2 and limit_price 124.33 (src/tests/test_blotter.py
lines 59-65), built with the blotter's first generated id. -/
def stop_limit_order_example : Order :=
  ⟨"generated-0", "AAPL", .SELL, 55, .STOP_LIMIT,
   some (124.33 : ℚ), some (111.2 : ℚ), .OPEN⟩

/-
Helper lemmas about the association-list primitives.
-/

theorem alookup_aupdate {α : Type} (xs : List (String × α)) (k k' : String)
    (v : α) :
    alookup (aupdate xs k v) k' =
      if k' = k then (alookup xs k).map (fun _ => v) else alookup xs k' := by
  induction xs with
  | nil => simp only [aupdate, alookup]; split_ifs <;> rfl
  | cons p rest ih =>
    obtain ⟨a, b⟩ := p
    by_cases hak : a = k
    · subst hak
      rw [show aupdate ((a, b) :: rest) a v = (a, v) :: rest from by
        simp [aupdate]]
      by_cases hk' : k' = a
      · subst hk'; simp [alookup]
      · have hk'' : ¬a = k' := fun h => hk' h.symm
        simp [alookup, hk', hk'']
    · rw [show aupdate ((a, b) :: rest) k v = (a, b) :: aupdate rest k v from
        by simp [aupdate, hak]]
      by_cases hk' : k' = a
      · subst hk'
        simp [alookup, hak]
      · have hk'' : ¬a = k' := fun h => hk' h.symm
        simp [alookup, hak, hk'', ih]

theorem alookup_mem {α : Type} {xs : List (String × α)} {k : String} {v : α}
    (h : alookup xs k = some v) : (k, v) ∈ xs := by
  induction xs with
  | nil => simp [alookup] at h
  | cons p rest ih =>
    obtain ⟨a, b⟩ := p
    simp only [alookup] at h
    by_cases hak : a = k
    · subst hak; simp at h; subst h; exact List.mem_cons_self _ _
    · simp [hak] at h; exact List.mem_cons_of_mem _ (ih h)

theorem alookup_append_right {α : Type} (xs : List (String × α)) (k : String)
    (v : α) (h : alookup xs k = none) :
    alookup (xs ++ [(k, v)]) k = some v := by
  induction xs with
  | nil => simp [alookup]
  | cons p rest ih =>
    obtain ⟨a, b⟩ := p
    simp only [alookup] at h ⊢
    by_cases hak : a = k
    · simp [hak] at h
    · simp only [hak, if_false] at h ⊢; exact ih h

theorem alookup_append_old {α : Type} (xs : List (String × α))
    (k k' : String) (v : α) (h : k' ≠ k) :
    alookup (xs ++ [(k, v)]) k' = alookup xs k' := by
  induction xs with
  | nil =>
    have hk : ¬k = k' := fun he => h he.symm
    simp [alookup, hk]
  | cons p rest ih =>
    obtain ⟨a, b⟩ := p
    simp only [alookup, List.cons_append]
    by_cases hak : a = k'
    · simp [hak]
    · simp only [hak, if_false]; exact ih

theorem alookup_apply_ids {f : Order → Order} (hf : ∀ o, f (f o) = f o)
    (orders : List (String × Order)) (ids : List String) (k : String) :
    alookup (apply_ids f orders ids) k =
      if k ∈ ids then (alookup orders k).map f else alookup orders k := by
  induction ids generalizing orders with
  | nil => simp [apply_ids]
  | cons oid rest ih =>
    simp only [apply_ids]
    have hstep : ∀ k', alookup
        (match alookup orders oid with
         | some o => aupdate orders oid (f o)
         | none => orders) k' =
        if k' = oid then (alookup orders oid).map f
        else alookup orders k' := by
      intro k'
      cases h : alookup orders oid with
      | none =>
        simp only [h]
        split_ifs with he
        · subst he; simp [h]
        · rfl
      | some o =>
        simp only [h, alookup_aupdate]
        split_ifs with he
        · subst he; simp [h]
        · rfl
    rw [ih, hstep]
    by_cases he : k = oid
    · subst he
      simp only [if_pos rfl, List.mem_cons, true_or, if_true]
      by_cases hmem : k ∈ rest
      · simp only [hmem, if_true]
        cases alookup orders k <;> simp [hf]
      · simp [hmem]
    · simp [he]

/-
Consequences of Blotter well-formedness used by the frame theorems.
-/

theorem WF_index_sound {b : Blotter} (h : b.WF = true) {ticker : String}
    {ids : List String} (hids : alookup b.asset_index ticker = some ids)
    {oid : String} (hoid : oid ∈ ids) {o : Order}
    (ho : alookup b.orders oid = some o) : o.ticker = ticker := by
  have hmem := alookup_mem hids
  simp only [Blotter.WF, Bool.and_eq_true, List.all_eq_true] at h
  have := h.2 _ hmem _ hoid
  simp only [ho] at this
  exact of_decide_eq_true this

theorem WF_index_complete {b : Blotter} (h : b.WF = true) {oid : String}
    {o : Order} (ho : alookup b.orders oid = some o) :
    ∃ ids, alookup b.asset_index o.ticker = some ids ∧ oid ∈ ids := by
  have hmem := alookup_mem ho
  simp only [Blotter.WF, Bool.and_eq_true, List.all_eq_true] at h
  have := h.1 _ hmem
  simp only at this
  cases hidx : alookup b.asset_index o.ticker with
  | none => rw [hidx] at this; exact absurd this (by simp)
  | some ids =>
    rw [hidx] at this
    exact ⟨ids, rfl, of_decide_eq_true this⟩

/-
Claim theorems.
-/

/-- C1: the Price-Range Filter is pure and returns true iff (the upper bound
is set and price > upper bound) or (the lower bound is set and
price < lower bound); it returns false when neither bound is set, the
comparison is exclusive at the bounds (a price equal to a set bound is not
filtered out), the spec's five worked examples hold, and
Blotter._filter_on_price is this filter applied to the order's trigger
price. -/
theorem is_outside_band_spec (price : ℚ) (upper lower : Option ℚ) :
    (is_outside_band price upper lower = true ↔
      (∃ u, upper = some u ∧ u < price) ∨ (∃ l, lower = some l ∧ price < l)) ∧
    is_outside_band price none none = false ∧
    is_outside_band price (some price) none = false ∧
    is_outside_band price none (some price) = false ∧
    (∀ o : Order, _filter_on_price o upper lower =
      is_outside_band o.trigger_price upper lower) ∧
    is_outside_band 100 (some 110) none = false ∧
    is_outside_band 100 none (some 110) = true ∧
    is_outside_band 100 (some 99) (some 111) = true ∧
    is_outside_band 100 (some 111) (some 99) = false ∧
    is_outside_band price none none = false := by
  refine ⟨?_, by simp [is_outside_band], by simp [is_outside_band],
    by simp [is_outside_band], fun o => rfl, by decide, by decide, by decide,
    by decide, by simp [is_outside_band]⟩
  cases upper <;> cases lower <;> simp [is_outside_band]

/-- C9: for every price series and period, wma returns None: the accumulated
list is rebound to the None result of Python's list.reverse() and that is
what the function returns, so no caller can obtain a weighted moving average
series from it. -/
theorem wma_always_none (prices : List ℚ) (period : Nat) :
    wma prices period = none := rfl

/-- C10: TiingoClient key resolution gives the TIINGO_API_KEY environment
variable precedence over an explicit api_key argument (the argument is
ignored whenever the variable is set), and it raises KeyError exactly when
the variable is unset and the argument is None. -/
theorem tiingo_api_key_spec (env_value api_key : Option String) :
    (∀ v, env_value = some v → tiingo_api_key env_value api_key = .ok v) ∧
    ((∃ e, tiingo_api_key env_value api_key = .error e) ↔
      env_value = none ∧ api_key = none) := by
  constructor
  · rintro v rfl; rfl
  · cases env_value <;> cases api_key <;>
      simp [tiingo_api_key, environ_get]

/-- C10 witness: with the environment variable and the argument both set to
different keys, construction succeeds with the environment's key, ignoring
the argument. -/
theorem tiingo_api_key_spec_witness :
    tiingo_api_key (some "env-key") (some "arg-key") = .ok "env-key" :=
  (tiingo_api_key_spec (some "env-key") (some "arg-key")).1 "env-key" rfl

/-- C3: create_order fails with ValidationError exactly when quantity ≤ 0, or
the order type requires a limit price (LIMIT, STOP_LIMIT) and none is given,
or it requires a stop price (STOP, STOP_LIMIT) and none is given, or the
type is MARKET and either price is supplied; no other input fails. -/
theorem create_order_validation_spec (ticker : String) (action : TradeAction)
    (qty : Int) (order_type : OrderType) (limit_price stop_price : Option ℚ)
    (order_id : Option String) (generated_id : String) :
    create_order ticker action qty order_type limit_price stop_price
        order_id generated_id = .error .ValidationError ↔
      qty ≤ 0 ∨
      ((order_type = .LIMIT ∨ order_type = .STOP_LIMIT) ∧
        limit_price = none) ∨
      ((order_type = .STOP ∨ order_type = .STOP_LIMIT) ∧
        stop_price = none) ∨
      (order_type = .MARKET ∧ (limit_price ≠ none ∨ stop_price ≠ none)) := by
  cases order_type <;> cases limit_price <;> cases stop_price <;>
    by_cases hq : qty ≤ 0 <;> simp [create_order, hq]

/-- C4: every successful create_order returns an order whose type tag matches
the request and which carries exactly the price fields of that variant, with
the supplied values; status is OPEN, instrument, action and quantity are as
given, and the id is order_id when provided, else the freshly generated id.
The factory takes no Blotter, so construction cannot touch any
Blotter index. -/
theorem create_order_success_spec (ticker : String) (action : TradeAction)
    (qty : Int) (order_type : OrderType) (limit_price stop_price : Option ℚ)
    (order_id : Option String) (generated_id : String) (o : Order)
    (h : create_order ticker action qty order_type limit_price stop_price
        order_id generated_id = .ok o) :
    o.status = .OPEN ∧ o.order_type = order_type ∧ o.ticker = ticker ∧
    o.action = action ∧ o.qty = qty ∧ o.id = order_id.getD generated_id ∧
    ((order_type = .LIMIT ∨ order_type = .STOP_LIMIT) →
      o.limit_price = limit_price) ∧
    ((order_type = .STOP ∨ order_type = .STOP_LIMIT) →
      o.stop_price = stop_price) ∧
    (order_type = .MARKET → o.limit_price = none ∧ o.stop_price = none) ∧
    (order_type = .LIMIT → o.stop_price = none) ∧
    (order_type = .STOP → o.limit_price = none) := by
  cases order_type <;> cases limit_price <;> cases stop_price <;>
    by_cases hq : qty ≤ 0 <;> simp [create_order, hq] at h <;>
    subst h <;> simp

/-- C4 witness: the spec section 8 scenario - a STOP_LIMIT SELL on AAPL with
stop_price 111.2 and limit_price 124.33 comes back with both prices exactly
as given, status OPEN and the generated id. -/
theorem create_order_success_spec_witness :
    stop_limit_order_example.status = .OPEN ∧
    stop_limit_order_example.limit_price = some (124.33 : ℚ) ∧
    stop_limit_order_example.stop_price = some (111.2 : ℚ) ∧
    stop_limit_order_example.id = "generated-0" := by
  have h := create_order_success_spec "AAPL" .SELL 55 .STOP_LIMIT
    (some (124.33 : ℚ)) (some (111.2 : ℚ)) none "generated-0"
    stop_limit_order_example rfl
  exact ⟨h.1, h.2.2.2.2.2.2.1 (Or.inr rfl), h.2.2.2.2.2.2.2.1 (Or.inr rfl),
    h.2.2.2.2.2.1⟩

/-
Further helper lemmas shared by the Blotter operation theorems.
-/

theorem alookup_index_add (idx : List (String × List String))
    (ticker oid : String) :
    ∃ ids, alookup (index_add idx ticker oid) ticker = some ids ∧
      oid ∈ ids := by
  unfold index_add
  cases h : alookup idx ticker with
  | none =>
    exact ⟨[oid], alookup_append_right idx ticker [oid] h, by simp⟩
  | some ids =>
    refine ⟨ids ++ [oid], ?_, by simp⟩
    rw [alookup_aupdate]
    simp [h]

theorem create_order_ok_basic (ticker : String) (action : TradeAction)
    (qty : Int) (order_type : OrderType) (limit_price stop_price : Option ℚ)
    (order_id : Option String) (generated_id : String) (o : Order)
    (h : create_order ticker action qty order_type limit_price stop_price
        order_id generated_id = .ok o) :
    o.status = .OPEN ∧ o.ticker = ticker ∧ o.qty = qty ∧
    o.id = order_id.getD generated_id := by
  cases order_type <;> cases limit_price <;> cases stop_price <;>
    by_cases hq : qty ≤ 0 <;> simp [create_order, hq] at h <;>
    subst h <;> simp

/-- C5: a successful place_order inserts the order under the returned id into
the primary map and the instrument's index set, a subsequent lookup returns
it with status OPEN and the quantity unchanged, and no other entry of the
primary map moves; place_order with an order_id already in the primary map
and otherwise valid parameters fails with DuplicateOrderError; any factory
validation error propagates unchanged; and every failed call leaves the
caller's Blotter - the state place_order_state hands back - exactly as it
was (all-or-nothing). -/
theorem place_order_spec (b : Blotter) (ticker : String) (qty : Int)
    (action : TradeAction) (order_type : OrderType)
    (limit_price stop_price : Option ℚ) (order_id : Option String) :
    (∀ b' oid, place_order b ticker qty action order_type limit_price
        stop_price order_id = .ok (b', oid) →
      ∃ o, alookup b'.orders oid = some o ∧ o.status = .OPEN ∧
        o.qty = qty ∧ o.ticker = ticker ∧
        (∃ ids, alookup b'.asset_index ticker = some ids ∧ oid ∈ ids) ∧
        (∀ k, k ≠ oid → alookup b'.orders k = alookup b.orders k)) ∧
    (∀ i, order_id = some i → (∃ w, alookup b.orders i = some w) →
      (∃ oc, create_order ticker action qty order_type limit_price stop_price
          order_id ("generated-" ++ toString b.next_id) = .ok oc) →
      place_order b ticker qty action order_type limit_price stop_price
          order_id = .error .DuplicateOrderError) ∧
    (∀ e, create_order ticker action qty order_type limit_price stop_price
        order_id ("generated-" ++ toString b.next_id) = .error e →
      place_order b ticker qty action order_type limit_price stop_price
          order_id = .error e) ∧
    (∀ e, place_order b ticker qty action order_type limit_price stop_price
        order_id = .error e →
      place_order_state b ticker qty action order_type limit_price stop_price
          order_id = b) := by
  refine ⟨?_, ?_, ?_, ?_⟩
  · intro b' oid hok
    cases hc : create_order ticker action qty order_type limit_price
        stop_price order_id ("generated-" ++ toString b.next_id) with
    | error e => simp [place_order, hc] at hok
    | ok o =>
      cases hdup : alookup b.orders o.id with
      | some w => simp [place_order, hc, hdup] at hok
      | none =>
        simp only [place_order, hc, hdup, Except.ok.injEq,
          Prod.mk.injEq] at hok
        obtain ⟨hb', hoid⟩ := hok
        subst hb'; subst hoid
        obtain ⟨hst, htk, hqty, _⟩ := create_order_ok_basic _ _ _ _ _ _ _ _ _ hc
        refine ⟨o, ?_, hst, hqty, htk, ?_, ?_⟩
        · exact alookup_append_right b.orders o.id o hdup
        · exact alookup_index_add b.asset_index ticker o.id
        · intro k hk
          exact alookup_append_old b.orders o.id k o hk
  · intro i hi hw hoc
    obtain ⟨oc, hoc⟩ := hoc
    obtain ⟨w, hw⟩ := hw
    obtain ⟨_, _, _, hid⟩ := create_order_ok_basic _ _ _ _ _ _ _ _ _ hoc
    subst hi
    simp only [Option.getD] at hid
    simp only [place_order, hoc, hid, hw]
  · intro e he
    simp only [place_order, he]
  · intro e he
    simp only [place_order_state, he]

/-- C5 witness: placing a MARKET BUY of 10 on GE with fresh id "five" into the
populated blotter succeeds, and the lookup finds it OPEN with quantity 10,
indexed under GE, with the previous entries untouched. -/
theorem place_order_spec_witness :
    ∃ o, alookup (place_order_state blotter_pop "GE" 10 .BUY .MARKET none none
        (some "five")).orders "five" = some o ∧ o.status = .OPEN ∧
      o.qty = 10 ∧ o.ticker = "GE" ∧
      (∃ ids, alookup (place_order_state blotter_pop "GE" 10 .BUY .MARKET none
          none (some "five")).asset_index "GE" = some ids ∧ "five" ∈ ids) ∧
      (∀ k, k ≠ "five" → alookup (place_order_state blotter_pop "GE" 10 .BUY
          .MARKET none none (some "five")).orders k =
        alookup blotter_pop.orders k) :=
  (place_order_spec blotter_pop "GE" 10 .BUY .MARKET none none
    (some "five")).1 _ "five" rfl

/-- C6: cancel_order fails with OrderNotFoundError when the id is absent from
the primary map or resolves to an order on a different instrument; it is an
idempotent no-op when the order is already CANCELLED; it fails with
InvalidTransitionError on a FILLED or REJECTED order, leaving the Blotter
unchanged; and on an OPEN or PARTIALLY_FILLED order it sets exactly that
order's status to CANCELLED, leaving every other order and the instrument
index unchanged. -/
theorem cancel_order_spec (b : Blotter) (oid ticker : String) :
    (alookup b.orders oid = none →
      cancel_order b oid ticker = .error .OrderNotFoundError) ∧
    (∀ o, alookup b.orders oid = some o → o.ticker ≠ ticker →
      cancel_order b oid ticker = .error .OrderNotFoundError) ∧
    (∀ o, alookup b.orders oid = some o → o.ticker = ticker →
      o.status = .CANCELLED → cancel_order b oid ticker = .ok b) ∧
    (∀ o, alookup b.orders oid = some o → o.ticker = ticker →
      o.status = .FILLED ∨ o.status = .REJECTED →
      cancel_order b oid ticker = .error .InvalidTransitionError) ∧
    (∀ o, alookup b.orders oid = some o → o.ticker = ticker →
      o.status.is_resting = true →
      ∃ b', cancel_order b oid ticker = .ok b' ∧
        alookup b'.orders oid = some { o with status := .CANCELLED } ∧
        (∀ k, k ≠ oid → alookup b'.orders k = alookup b.orders k) ∧
        b'.asset_index = b.asset_index ∧ b'.next_id = b.next_id) := by
  refine ⟨?_, ?_, ?_, ?_, ?_⟩
  · intro h; simp [cancel_order, h]
  · intro o ho htk; simp [cancel_order, ho, htk]
  · intro o ho htk hst; simp [cancel_order, ho, htk, hst]
  · intro o ho htk hst
    have hnc : ¬o.status = OrderStatus.CANCELLED := by
      rcases hst with h | h <;> simp [h]
    simp [cancel_order, ho, htk, hnc, hst]
  · intro o ho htk hst
    have hnc : ¬o.status = OrderStatus.CANCELLED := by
      intro h; rw [h] at hst; simp [OrderStatus.is_resting] at hst
    have hnf : ¬(o.status = OrderStatus.FILLED ∨
        o.status = OrderStatus.REJECTED) := by
      rintro (h | h) <;> rw [h] at hst <;>
        simp [OrderStatus.is_resting] at hst
    refine ⟨⟨aupdate b.orders oid { o with status := .CANCELLED },
        b.asset_index, b.next_id⟩, ?_, ?_, ?_, rfl, rfl⟩
    · simp [cancel_order, ho, htk, hnc, hnf]
    · rw [alookup_aupdate]; simp [ho]
    · intro k hk
      rw [alookup_aupdate]; simp [hk]

/-- C6 witness: cancelling the OPEN order "one" on AAPL in the populated
blotter succeeds, sets its status to CANCELLED, and leaves the other orders
and the index unchanged. -/
theorem cancel_order_spec_witness :
    ∃ b', cancel_order blotter_pop "one" "AAPL" = .ok b' ∧
      alookup b'.orders "one" =
        some { order_one with status := .CANCELLED } ∧
      (∀ k, k ≠ "one" → alookup b'.orders k = alookup blotter_pop.orders k) ∧
      b'.asset_index = blotter_pop.asset_index ∧
      b'.next_id = blotter_pop.next_id :=
  (cancel_order_spec blotter_pop "one" "AAPL").2.2.2.2 order_one rfl rfl rfl

theorem cancel_resting_idem (o : Order) :
    cancel_resting (cancel_resting o) = cancel_resting o := by
  unfold cancel_resting
  cases hs : o.status <;> simp [OrderStatus.is_resting, hs]

theorem fill_triggered_idem (o : Order) (low high : ℚ) :
    fill_triggered (fill_triggered o low high) low high =
      fill_triggered o low high := by
  unfold fill_triggered
  by_cases h : (o.status.is_resting && order_triggered o low high) = true
  · simp only [if_pos h]
    simp [OrderStatus.is_resting]
  · simp only [if_neg h]

/-- C7: cancel_all_orders_for_asset transitions to CANCELLED exactly the
orders on the given instrument whose status is OPEN or PARTIALLY_FILLED;
every order on another instrument and every terminal order is returned
completely unchanged, no entry appears or disappears, the index and counter
are untouched, and the operation is total - an instrument with no index
entry is a no-op, so the call never raises. -/
theorem cancel_all_orders_spec (b : Blotter) (ticker : String)
    (hwf : b.WF = true) :
    (∀ oid o, alookup b.orders oid = some o →
      alookup (cancel_all_orders_for_asset b ticker).orders oid =
        some (if o.ticker = ticker ∧ o.status.is_resting = true
              then { o with status := .CANCELLED } else o)) ∧
    (∀ oid, alookup b.orders oid = none →
      alookup (cancel_all_orders_for_asset b ticker).orders oid = none) ∧
    (cancel_all_orders_for_asset b ticker).asset_index = b.asset_index ∧
    (cancel_all_orders_for_asset b ticker).next_id = b.next_id ∧
    (alookup b.asset_index ticker = none →
      cancel_all_orders_for_asset b ticker = b) := by
  refine ⟨?_, ?_, ?_, ?_, ?_⟩
  · intro oid o ho
    unfold cancel_all_orders_for_asset
    cases hidx : alookup b.asset_index ticker with
    | none =>
      have hne : ¬o.ticker = ticker := by
        intro he
        obtain ⟨ids, hids, _⟩ := WF_index_complete hwf ho
        rw [he, hidx] at hids
        exact absurd hids (by simp)
      simp [ho, hne]
    | some ids =>
      simp only
      rw [alookup_apply_ids cancel_resting_idem]
      by_cases hmem : oid ∈ ids
      · have he : o.ticker = ticker := WF_index_sound hwf hidx hmem ho
        rw [if_pos hmem, ho]
        by_cases hr : o.status.is_resting = true
        · simp [cancel_resting, hr, he]
        · simp [cancel_resting, hr, he]
      · have hne : ¬o.ticker = ticker := by
          intro he
          obtain ⟨ids2, hids2, hmem2⟩ := WF_index_complete hwf ho
          rw [he, hidx] at hids2
          simp only [Option.some.injEq] at hids2
          exact hmem (hids2 ▸ hmem2)
        rw [if_neg hmem, ho]
        simp [hne]
  · intro oid ho
    unfold cancel_all_orders_for_asset
    cases hidx : alookup b.asset_index ticker with
    | none => simp [ho]
    | some ids =>
      simp only
      rw [alookup_apply_ids cancel_resting_idem]
      split_ifs <;> simp [ho]
  · unfold cancel_all_orders_for_asset
    cases alookup b.asset_index ticker <;> rfl
  · unfold cancel_all_orders_for_asset
    cases alookup b.asset_index ticker <;> rfl
  · intro hidx
    unfold cancel_all_orders_for_asset
    rw [hidx]

/-- C7 witness: on the populated blotter, cancelling all AAPL orders cancels
the OPEN order "one" and leaves the MSFT order "three" and the FILLED FB
order "four" exactly as they were. -/
theorem cancel_all_orders_spec_witness :
    alookup (cancel_all_orders_for_asset blotter_pop "AAPL").orders "one" =
      some { order_one with status := .CANCELLED } ∧
    alookup (cancel_all_orders_for_asset blotter_pop "AAPL").orders "three" =
      some order_three ∧
    alookup (cancel_all_orders_for_asset blotter_pop "AAPL").orders "four" =
      some order_filled := by
  have h := cancel_all_orders_spec blotter_pop "AAPL" (by decide)
  refine ⟨?_, ?_, ?_⟩
  · have h1 := h.1 "one" order_one rfl
    simpa using h1
  · have h3 := h.1 "three" order_three rfl
    simpa [order_three, OrderStatus.is_resting] using h3
  · have h4 := h.1 "four" order_filled rfl
    simpa [order_filled, OrderStatus.is_resting] using h4

theorem price_reachable_buy (p low high : ℚ) (h : low ≤ high) :
    price_reachable .BUY p low high = true ↔
      ∃ q, low ≤ q ∧ q ≤ high ∧ q ≤ p := by
  simp only [price_reachable, is_outside_band, Bool.false_or,
    Bool.not_eq_true', decide_eq_false_iff_not, not_lt]
  constructor
  · intro hp; exact ⟨low, le_refl low, h, hp⟩
  · rintro ⟨q, h1, _, h3⟩; exact le_trans h1 h3

theorem price_reachable_sell (p low high : ℚ) (h : low ≤ high) :
    price_reachable .SELL p low high = true ↔
      ∃ q, low ≤ q ∧ q ≤ high ∧ p ≤ q := by
  simp only [price_reachable, is_outside_band, Bool.or_false,
    Bool.not_eq_true', decide_eq_false_iff_not, not_lt]
  constructor
  · intro hp; exact ⟨high, h, le_refl high, hp⟩
  · rintro ⟨q, _, h2, h3⟩; exact le_trans h3 h2

/-- C2: on a bar with low ≤ high, every resting order on the instrument is
checked through the Price-Range Filter with the direction-selected band edge
(lower_bound = low for BUY, upper_bound = high for SELL) against its
relevant trigger price - limit_price for LIMIT, stop_price for STOP, stop
first then limit for STOP_LIMIT - with a LIMIT BUY triggerable exactly when
some band price is ≤ its limit_price and a LIMIT SELL exactly when some band
price is ≥ it; a MARKET order triggers unconditionally, and every triggered
order's status becomes FILLED in the resulting blotter. -/
theorem evaluate_trigger_spec (b : Blotter) (ticker : String) (bar : Bar)
    (hwf : b.WF = true) (hlh : bar.low ≤ bar.high) (oid : String) (o : Order)
    (ho : alookup b.orders oid = some o) (htk : o.ticker = ticker)
    (hr : o.status.is_resting = true) :
    (alookup (evaluate_trigger b ticker bar).orders oid =
      some (if order_triggered o bar.low bar.high = true
            then { o with status := .FILLED } else o)) ∧
    (o.order_type = .MARKET → order_triggered o bar.low bar.high = true) ∧
    (∀ L, o.order_type = .LIMIT → o.limit_price = some L →
      (order_triggered o bar.low bar.high = true ↔
        (o.action = .BUY ∧ ∃ p, bar.low ≤ p ∧ p ≤ bar.high ∧ p ≤ L) ∨
        (o.action = .SELL ∧ ∃ p, bar.low ≤ p ∧ p ≤ bar.high ∧ L ≤ p))) ∧
    (∀ S, o.order_type = .STOP → o.stop_price = some S →
      order_triggered o bar.low bar.high =
        price_reachable o.action S bar.low bar.high) ∧
    (∀ S L, o.order_type = .STOP_LIMIT → o.stop_price = some S →
      o.limit_price = some L →
      order_triggered o bar.low bar.high =
        (price_reachable o.action S bar.low bar.high
          && price_reachable o.action L bar.low bar.high)) ∧
    (price_reachable o.action o.trigger_price bar.low bar.high =
      match o.action with
      | .BUY => !(is_outside_band o.trigger_price none (some bar.low))
      | .SELL => !(is_outside_band o.trigger_price (some bar.high) none)) := by
  refine ⟨?_, ?_, ?_, ?_, ?_, ?_⟩
  · obtain ⟨ids, hids, hmem⟩ := WF_index_complete hwf ho
    rw [htk] at hids
    unfold evaluate_trigger
    rw [hids]
    simp only
    rw [alookup_apply_ids (fun w => fill_triggered_idem w bar.low bar.high)]
    rw [if_pos hmem, ho]
    simp only [Option.map_some']
    unfold fill_triggered
    rw [hr]
    by_cases ht : order_triggered o bar.low bar.high = true
    · simp [ht]
    · simp [ht]
  · intro hm; simp [order_triggered, hm]
  · intro L hl hlp
    simp only [order_triggered, hl, hlp, Option.getD_some]
    cases ha : o.action with
    | BUY =>
      rw [price_reachable_buy L bar.low bar.high hlh]
      simp
    | SELL =>
      rw [price_reachable_sell L bar.low bar.high hlh]
      simp
  · intro S hs hsp
    simp [order_triggered, hs, hsp]
  · intro S L hs hsp hlp
    simp [order_triggered, hs, hsp, hlp]
  · cases o.action <;> rfl

/-- C2 witness: on the populated blotter, a bar with band [99, 101] triggers
the resting LIMIT BUY "one" (limit 100.10 ≥ low), which transitions to
FILLED. -/
theorem evaluate_trigger_spec_witness :
    alookup (evaluate_trigger blotter_pop "AAPL" bar_example).orders "one" =
      some { order_one with status := .FILLED } := by
  have h := evaluate_trigger_spec blotter_pop "AAPL" bar_example (by decide)
    (by decide) "one" order_one rfl rfl rfl
  have ht : order_triggered order_one bar_example.low bar_example.high =
      true := by
    norm_num [order_triggered, order_one, bar_example, price_reachable,
      is_outside_band]
  have h1 := h.1
  rw [if_pos ht] at h1
  exact h1

theorem terminal_not_resting (s : OrderStatus) (h : s.is_terminal = true) :
    s.is_resting = false := by
  cases s <;> simp_all [OrderStatus.is_resting, OrderStatus.is_terminal]

theorem cancel_resting_status_only (o : Order) :
    cancel_resting o = { o with status := (cancel_resting o).status } := by
  unfold cancel_resting
  by_cases hr : o.status.is_resting = true
  · simp [hr]
  · simp [hr]

theorem cancel_resting_terminal (o : Order)
    (h : o.status.is_terminal = true) : cancel_resting o = o := by
  unfold cancel_resting
  simp [terminal_not_resting o.status h]

theorem fill_triggered_status_only (o : Order) (low high : ℚ) :
    fill_triggered o low high =
      { o with status := (fill_triggered o low high).status } := by
  unfold fill_triggered
  by_cases h : (o.status.is_resting && order_triggered o low high) = true
  · simp [h]
  · simp [h]

theorem fill_triggered_terminal (o : Order) (low high : ℚ)
    (h : o.status.is_terminal = true) : fill_triggered o low high = o := by
  unfold fill_triggered
  simp [terminal_not_resting o.status h]

/-- C8: every Blotter operation preserves the terminal-state and persistence
invariants: a successful place_order keeps every existing entry verbatim;
cancel_order, cancel_all_orders_for_asset and evaluate_trigger keep every
order id in the primary map, change at most the status of each stored order,
and return terminal (FILLED, CANCELLED, REJECTED) orders entirely unchanged;
and the one operation that would transition a terminal order out of its
state - cancel_order on a FILLED or REJECTED order - fails with
InvalidTransitionError, leaving the Blotter as it was. -/
theorem terminal_state_spec (b : Blotter) :
    (∀ tk qty act ot lp sp oi b' noid,
      place_order b tk qty act ot lp sp oi = .ok (b', noid) →
      ∀ k o, alookup b.orders k = some o → alookup b'.orders k = some o) ∧
    (∀ oid2 tk b', cancel_order b oid2 tk = .ok b' →
      ∀ k o, alookup b.orders k = some o →
        ∃ o', alookup b'.orders k = some o' ∧
          o' = { o with status := o'.status } ∧
          (o.status.is_terminal = true → o' = o)) ∧
    (∀ tk k o, alookup b.orders k = some o →
      ∃ o', alookup (cancel_all_orders_for_asset b tk).orders k = some o' ∧
        o' = { o with status := o'.status } ∧
        (o.status.is_terminal = true → o' = o)) ∧
    (∀ tk bar k o, alookup b.orders k = some o →
      ∃ o', alookup (evaluate_trigger b tk bar).orders k = some o' ∧
        o' = { o with status := o'.status } ∧
        (o.status.is_terminal = true → o' = o)) ∧
    (∀ oid2 tk o, alookup b.orders oid2 = some o → o.ticker = tk →
      o.status = .FILLED ∨ o.status = .REJECTED →
      cancel_order b oid2 tk = .error .InvalidTransitionError) := by
  refine ⟨?_, ?_, ?_, ?_, ?_⟩
  · intro tk qty act ot lp sp oi b' noid hok k o hk
    cases hc : create_order tk act qty ot lp sp oi
        ("generated-" ++ toString b.next_id) with
    | error e => simp [place_order, hc] at hok
    | ok onew =>
      cases hdup : alookup b.orders onew.id with
      | some w => simp [place_order, hc, hdup] at hok
      | none =>
        simp only [place_order, hc, hdup, Except.ok.injEq,
          Prod.mk.injEq] at hok
        obtain ⟨hb', _⟩ := hok
        subst hb'
        have hkne : k ≠ onew.id := by
          intro he; rw [he, hdup] at hk; exact absurd hk (by simp)
        rw [alookup_append_old b.orders onew.id k onew hkne]
        exact hk
  · intro oid2 tk b' hok k o hk
    cases h2 : alookup b.orders oid2 with
    | none => simp [cancel_order, h2] at hok
    | some o2 =>
      simp only [cancel_order, h2] at hok
      by_cases h3 : o2.ticker ≠ tk
      · rw [if_pos h3] at hok; exact absurd hok (by simp)
      · rw [if_neg h3] at hok
        by_cases h4 : o2.status = OrderStatus.CANCELLED
        · rw [if_pos h4] at hok
          simp only [Except.ok.injEq] at hok
          subst hok
          exact ⟨o, hk, rfl, fun _ => rfl⟩
        · rw [if_neg h4] at hok
          by_cases h5 : o2.status = OrderStatus.FILLED ∨
              o2.status = OrderStatus.REJECTED
          · rw [if_pos h5] at hok; exact absurd hok (by simp)
          · rw [if_neg h5] at hok
            simp only [Except.ok.injEq] at hok
            subst hok
            by_cases hke : k = oid2
            · subst hke
              rw [hk] at h2
              simp only [Option.some.injEq] at h2
              subst h2
              refine ⟨{ o with status := .CANCELLED }, ?_, rfl, ?_⟩
              · rw [alookup_aupdate]; simp [hk]
              · intro ht
                exfalso
                cases hs : o.status <;> rw [hs] at ht h4 h5 <;>
                  simp_all [OrderStatus.is_terminal]
            · refine ⟨o, ?_, rfl, fun _ => rfl⟩
              rw [alookup_aupdate]
              simp [hke, hk]
  · intro tk k o hk
    unfold cancel_all_orders_for_asset
    cases hidx : alookup b.asset_index tk with
    | none => exact ⟨o, hk, rfl, fun _ => rfl⟩
    | some ids =>
      simp only
      rw [alookup_apply_ids cancel_resting_idem]
      by_cases hmem : k ∈ ids
      · rw [if_pos hmem, hk]
        exact ⟨cancel_resting o, rfl, cancel_resting_status_only o,
          cancel_resting_terminal o⟩
      · rw [if_neg hmem]
        exact ⟨o, hk, rfl, fun _ => rfl⟩
  · intro tk bar k o hk
    unfold evaluate_trigger
    cases hidx : alookup b.asset_index tk with
    | none => exact ⟨o, hk, rfl, fun _ => rfl⟩
    | some ids =>
      simp only
      rw [alookup_apply_ids (fun w => fill_triggered_idem w bar.low bar.high)]
      by_cases hmem : k ∈ ids
      · rw [if_pos hmem, hk]
        exact ⟨fill_triggered o bar.low bar.high, rfl,
          fill_triggered_status_only o bar.low bar.high,
          fill_triggered_terminal o bar.low bar.high⟩
      · rw [if_neg hmem]
        exact ⟨o, hk, rfl, fun _ => rfl⟩
  · intro oid2 tk o ho htk hst
    have hnc : ¬o.status = OrderStatus.CANCELLED := by
      rcases hst with h | h <;> simp [h]
    simp [cancel_order, ho, htk, hnc, hst]

/-- C8 witness: the FILLED order "four" survives a cancel-all on its own
instrument entirely unchanged. -/
theorem terminal_state_spec_witness :
    ∃ o', alookup (cancel_all_orders_for_asset blotter_pop "FB").orders
        "four" = some o' ∧
      o' = { order_filled with status := o'.status } ∧
      (order_filled.status.is_terminal = true → o' = order_filled) :=
  (terminal_state_spec blotter_pop).2.2.1 "FB" "four" order_filled rfl
